import Mathlib

/-!
Verification of `calculadora-neuronal` (src/app/page.tsx), a React component
that computes a + b or a - b with a one-neuron dense layer (TensorFlow.js).

Shallow embedding notes:
* Numbers are modelled exactly over `ℚ`; the source runs on IEEE floats, and the
  spec's "within floating-point tolerance" becomes exact equality here.
* TensorFlow.js tensors are modelled as id-tagged data (`Tensor`) allocated in an
  explicit environment `Env` that tracks which tensor ids are live, so that the
  dispose discipline of `calcular` and the (absence of) disposal in
  `cambiarModelo` are visible.
* `await`/async suspension points carry no semantics here; a resolution or a
  prediction is one function application. External effects that the component
  does not control — whether `tf.loadLayersModel` succeeds, and in which shape
  (tensor vs tensor array) `model.predict` returns, or whether the forward pass
  throws — are oracles passed as arguments (`Option Model`, `Outcome`).
-/

namespace Calculadora

/-- The two operations of the UI: `'suma' | 'resta'` in the source. -/
inductive Op where
  | suma
  | resta
deriving DecidableEq, Repr

/-- A TensorFlow.js tensor, modelled as an allocation id plus its (flattened)
numeric contents. -/
structure Tensor where
  id : Nat
  data : List ℚ
deriving DecidableEq, Repr

/-- The tensor runtime: a fresh-id counter and the list of live (allocated and
not yet disposed) tensor ids. -/
structure Env where
  nextId : Nat
  live : List Nat
deriving DecidableEq, Repr

/-- Allocate a tensor (`tf.tensor2d` / `tf.tensor1d` / a forward-pass output). -/
def Env.alloc (env : Env) (d : List ℚ) : Tensor × Env :=
  (⟨env.nextId, d⟩, ⟨env.nextId + 1, env.live ++ [env.nextId]⟩)

/-- `t.dispose()`: the tensor's id stops being live. -/
def Env.dispose (env : Env) (t : Tensor) : Env :=
  ⟨env.nextId, env.live.filter (fun i => i != t.id)⟩

/-- Allocate one tensor per data list, in order. -/
def Env.allocMany (env : Env) : List (List ℚ) → List Tensor × Env
  | [] => ([], env)
  | d :: ds =>
    let (t, env1) := env.alloc d
    let (ts, env2) := env1.allocMany ds
    (t :: ts, env2)

/-- `ts.forEach(t => t.dispose())`. -/
def Env.disposeAll (env : Env) (ts : List Tensor) : Env :=
  ts.foldl Env.dispose env

/-- Environment well-formedness: every live id was produced by the counter. -/
def Env.WF (env : Env) : Prop :=
  ∀ i ∈ env.live, i < env.nextId

instance (env : Env) : Decidable env.WF := by
  unfold Env.WF; infer_instance

/-- The empty tensor runtime. -/
def Env.init : Env := ⟨0, []⟩

/-- A `tf.LayersModel` as this app uses it: one dense layer with a `[2,1]`
kernel and a `[1]` bias, both backed by tensors. -/
structure Model where
  kernel : Tensor
  bias : Tensor
deriving DecidableEq, Repr

/-- `crearModeloEnMemoria`: builds the synthetic fallback model, setting the
kernel to `[[w1],[w2]]` with `w1 = 1`, `w2 = op === 'suma' ? 1 : -1`, and the
bias to `[0]` (source lines 17–34). -/
def crearModeloEnMemoria (op : Op) (env : Env) : Model × Env :=
  let w1 : ℚ := 1
  let w2 : ℚ := if op = Op.suma then 1 else -1
  let (kT, env1) := env.alloc [w1, w2]
  let (bT, env2) := env1.alloc [0]
  (⟨kT, bT⟩, env2)

/-- The dense layer's forward pass on the 1×2 batch `[[a, b]]`:
`a·kernel[0][0] + b·kernel[1][0] + bias[0]`. -/
def forwardValue (m : Model) (a b : ℚ) : ℚ :=
  a * m.kernel.data.getD 0 0 + b * m.kernel.data.getD 1 0 + m.bias.data.getD 0 0

/-- Consume a run of decimal digits, returning the accumulated value, the
number of digits consumed, and the rest of the input. -/
def parseDigits (acc count : Nat) : List Char → Nat × Nat × List Char
  | [] => (acc, count, [])
  | c :: cs =>
    if c.isDigit then parseDigits (10 * acc + (c.toNat - 48)) (count + 1) cs
    else (acc, count, c :: cs)

/-- JavaScript `parseFloat` on a character list: optional sign, integer digits,
optional fraction, optional exponent; trailing garbage is ignored; `none` models
`NaN` (no digit found). Non-finite parses (`"Infinity"`) fall outside this
rational embedding and are not modelled; every claim quantifies over finite
values only. -/
def parseFloatCore (cs0 : List Char) : Option ℚ :=
  let cs := cs0.dropWhile Char.isWhitespace
  let sgn : ℚ × List Char :=
    match cs with
    | '-' :: r => (-1, r)
    | '+' :: r => (1, r)
    | _ => (1, cs)
  let (ip, ni, cs2) := parseDigits 0 0 sgn.2
  let frac : Nat × Nat × List Char :=
    match cs2 with
    | '.' :: r => parseDigits 0 0 r
    | _ => (0, 0, cs2)
  let (fp, nf, cs3) := frac
  if ni = 0 ∧ nf = 0 then none
  else
    let mantissa : ℚ := (ip : ℚ) + (fp : ℚ) / ((10 : ℚ) ^ nf)
    let expVal : Int :=
      match cs3 with
      | c :: r =>
        if c = 'e' ∨ c = 'E' then
          let signedTail : Int × List Char :=
            match r with
            | '-' :: r2 => (-1, r2)
            | '+' :: r2 => (1, r2)
            | _ => (1, r)
          let (ev, ne, _) := parseDigits 0 0 signedTail.2
          if ne = 0 then 0 else signedTail.1 * ev
        else 0
      | [] => 0
    some (sgn.1 * mantissa * (10 : ℚ) ^ expVal)

/-- `parseFloat` on a string. -/
def parseFloat (s : String) : Option ℚ :=
  parseFloatCore s.toList

/-- Render a count of hundredths as a signed decimal with two fraction digits. -/
def formatCenti (n : Int) : String :=
  let sgnStr := if n < 0 then "-" else ""
  let m := n.natAbs
  sgnStr ++ toString (m / 100) ++ "." ++
    (if m % 100 < 10 then "0" else "") ++ toString (m % 100)

/-- JavaScript `Number.prototype.toFixed(2)` at rational precision: round the
magnitude of `q·100` half away from zero (ECMA-262 picks the larger candidate
for the magnitude), then print with two fraction digits and the sign of `q`. -/
def toFixed2 (q : ℚ) : String :=
  let sgnStr := if q < 0 then "-" else ""
  let n : Int := ⌊|q| * 100 + 1 / 2⌋
  let m := n.natAbs
  sgnStr ++ toString (m / 100) ++ "." ++
    (if m % 100 < 10 then "0" else "") ++ toString (m % 100)

/-- The component's React state (source lines 7–13). The UI-only fields the
claims never touch (`valA`/`valB` editing) are kept as the raw strings the
inputs hold. -/
structure AppState where
  modeloActual : Option Model
  operacion : Op
  valA : String
  valB : String
  resultado : Option String
  cargando : Bool
  origenModelo : String
deriving DecidableEq, Repr

/-- The synchronous prefix of `cambiarModelo` (source lines 39–42), run before
the `await tf.loadLayersModel` suspension point: clear the model and the result,
raise the loading flag, clear the provenance. -/
def startLoading (s : AppState) : AppState :=
  { s with modeloActual := none, resultado := none, cargando := true,
           origenModelo := "" }

/-- The rest of `cambiarModelo` (source lines 48–73) once the load attempt has
resolved: `load = some m` is a successful `tf.loadLayersModel`, `load = none`
is any load failure (404, parse error, …), handled by the `catch` that installs
the synthetic model; the `finally` lowers the loading flag. -/
def finishLoading (s : AppState) (load : Option Model) (env : Env) :
    AppState × Env :=
  match load with
  | some m =>
    ({ s with modeloActual := some m, origenModelo := "Archivo JSON",
              cargando := false }, env)
  | none =>
    let (mS, env1) := crearModeloEnMemoria s.operacion env
    ({ s with modeloActual := some mS,
              origenModelo := "Generado en Memoria (Demo)",
              cargando := false }, env1)

/-- `cambiarModelo` (source lines 38–74), the effect that runs whenever
`operacion` changes: the loading prefix followed by resolution. -/
def cambiarModelo (s : AppState) (load : Option Model) (env : Env) :
    AppState × Env :=
  finishLoading (startLoading s) load env

/-- Selecting an operation in the UI (`setOperacion`, source lines 144/155);
the effect `cambiarModelo` then fires on the new state. -/
def selectOperation (s : AppState) (op : Op) : AppState :=
  { s with operacion := op }

/-- Oracle for the parts of `calcular`'s try block the component does not
control: `model.predict` may return a single tensor (`okSingle`, the actual
TF.js behaviour for this model) or an array of tensors (`okBatch extra`: the
forward output followed by extra tensors with the given data), or the forward
pass may throw (`failPredict`), or the `data()` extraction may throw after the
output tensor exists (`failData`). -/
inductive Outcome where
  | okSingle
  | okBatch (extra : List (List ℚ))
  | failPredict
  | failData
deriving DecidableEq, Repr

/-- What one invocation of `calcular` produces: the new component state, the
new tensor environment, whether `alert(...)` fired (the validation notice,
source line 87), and whether `modeloActual.predict` was invoked. -/
structure CalcResult where
  state : AppState
  env : Env
  alerted : Bool
  predictInvoked : Bool
deriving DecidableEq, Repr

/-- `calcular` (source lines 80–121). Guard: silent return when the model is
absent or either field is the empty string; `alert` and return when a parse is
`NaN`; otherwise allocate the input batch, run `predict`, display
`data[0].toFixed(2)` (or `"Error"` if the try block threw), and in `finally`
dispose the input tensor and then the prediction tensor(s). -/
def calcular (s : AppState) (env : Env) (o : Outcome) : CalcResult :=
  match s.modeloActual with
  | none => ⟨s, env, false, false⟩
  | some m =>
    if s.valA = "" ∨ s.valB = "" then ⟨s, env, false, false⟩
    else
      match parseFloat s.valA, parseFloat s.valB with
      | some nA, some nB =>
        let (inputT, env1) := env.alloc [nA, nB]
        match o with
        | .okSingle =>
          let (outT, env2) := env1.alloc [forwardValue m nA nB]
          ⟨{ s with resultado := some (toFixed2 (outT.data.getD 0 0)) },
           (env2.dispose inputT).dispose outT, false, true⟩
        | .okBatch extra =>
          let (outT, env2) := env1.alloc [forwardValue m nA nB]
          let (extraTs, env3) := env2.allocMany extra
          ⟨{ s with resultado := some (toFixed2 (outT.data.getD 0 0)) },
           (env3.dispose inputT).disposeAll (outT :: extraTs), false, true⟩
        | .failPredict =>
          ⟨{ s with resultado := some "Error" },
           env1.dispose inputT, false, true⟩
        | .failData =>
          let (outT, env2) := env1.alloc [forwardValue m nA nB]
          ⟨{ s with resultado := some "Error" },
           (env2.dispose inputT).dispose outT, false, true⟩
      | _, _ => ⟨s, env, true, false⟩

/-! ### Branch lemmas for calcular -/

lemma calcular_of_none (s : AppState) (env : Env) (o : Outcome)
    (h : s.modeloActual = none) : calcular s env o = ⟨s, env, false, false⟩ := by
  simp [calcular, h]

lemma calcular_of_empty (s : AppState) (env : Env) (o : Outcome) (m : Model)
    (h : s.modeloActual = some m) (he : s.valA = "" ∨ s.valB = "") :
    calcular s env o = ⟨s, env, false, false⟩ := by
  simp [calcular, h, he]

lemma calcular_of_nan (s : AppState) (env : Env) (o : Outcome) (m : Model)
    (h : s.modeloActual = some m) (hA : s.valA ≠ "") (hB : s.valB ≠ "")
    (hn : parseFloat s.valA = none ∨ parseFloat s.valB = none) :
    calcular s env o = ⟨s, env, true, false⟩ := by
  rcases hn with hn | hn <;>
    · simp only [calcular, h, hA, hB, or_self, if_neg, not_false_iff]
      rcases hpa : parseFloat s.valA with _ | a <;>
        rcases hpb : parseFloat s.valB with _ | b <;>
          simp_all

lemma calcular_state_of_valid (s : AppState) (env : Env) (o : Outcome)
    (m : Model) (a b : ℚ)
    (h : s.modeloActual = some m) (hA : s.valA ≠ "") (hB : s.valB ≠ "")
    (ha : parseFloat s.valA = some a) (hb : parseFloat s.valB = some b) :
    (calcular s env o).state =
      { s with resultado := some (match o with
          | Outcome.failPredict => "Error"
          | Outcome.failData => "Error"
          | _ => toFixed2 (forwardValue m a b)) } ∧
    (calcular s env o).alerted = false ∧
    (calcular s env o).predictInvoked = true := by
  cases o <;>
    simp [calcular, h, hA, hB, ha, hb, Env.alloc, toFixed2]

/-! ### Tensor-environment lemmas -/

lemma allocMany_spec (ds : List (List ℚ)) (env : Env) :
    (env.allocMany ds).1.map Tensor.id = List.range' env.nextId ds.length ∧
    (env.allocMany ds).2.nextId = env.nextId + ds.length ∧
    (env.allocMany ds).2.live = env.live ++ List.range' env.nextId ds.length := by
  induction ds generalizing env with
  | nil => simp [Env.allocMany]
  | cons d ds ih =>
    obtain ⟨h1, h2, h3⟩ := ih (env.alloc d).2
    refine ⟨?_, ?_, ?_⟩
    · simpa [Env.allocMany, Env.alloc, List.range'_succ] using h1
    · simp only [Env.allocMany, Env.alloc, List.length_cons] at h2 ⊢
      omega
    · simp [Env.allocMany, Env.alloc, List.range'_succ] at h3 ⊢
      simpa using h3

lemma disposeAll_live (ts : List Tensor) (env : Env) :
    (env.disposeAll ts).live
      = env.live.filter (fun i => !(ts.map Tensor.id).contains i) := by
  induction ts generalizing env with
  | nil => simp [Env.disposeAll]
  | cons t ts ih =>
    have hstep : env.disposeAll (t :: ts) = (env.dispose t).disposeAll ts := rfl
    rw [hstep, ih]
    simp only [Env.dispose, List.filter_filter]
    apply List.filter_congr
    intro x _
    by_cases hx : x = t.id <;> simp [hx]

lemma filter_bne_eq_self (L : List Nat) (k : Nat) (h : ∀ i ∈ L, i ≠ k) :
    L.filter (fun i => i != k) = L := by
  apply List.filter_eq_self.mpr
  intro a ha
  simpa using h a ha

lemma scrub_one (L : List Nat) (n : Nat) (hL : ∀ i ∈ L, i < n) :
    (L ++ [n]).filter (fun i => i != n) = L := by
  rw [List.filter_append, filter_bne_eq_self L n (fun i hi => Nat.ne_of_lt (hL i hi))]
  simp

lemma scrub_two (L : List Nat) (n : Nat) (hL : ∀ i ∈ L, i < n) :
    (((L ++ [n]) ++ [n + 1]).filter (fun i => i != n)).filter
      (fun i => i != n + 1) = L := by
  rw [List.filter_append, scrub_one L n hL, List.filter_append,
    filter_bne_eq_self L (n + 1) (fun i hi => Nat.ne_of_lt (Nat.lt_succ_of_lt (hL i hi)))]
  simp

lemma scrub_batch (L : List Nat) (n k : Nat) (hL : ∀ i ∈ L, i < n) :
    ((((L ++ [n]) ++ [n + 1]) ++ List.range' (n + 2) k).filter
        (fun i => i != n)).filter
      (fun i => !(((n + 1) :: List.range' (n + 2) k).contains i)) = L := by
  have hrange : (List.range' (n + 2) k).filter (fun i => i != n)
      = List.range' (n + 2) k := by
    apply List.filter_eq_self.mpr
    intro a ha
    have hm := List.mem_range'_1.mp ha
    simp only [bne_iff_ne, ne_eq, decide_eq_true_eq]
    omega
  have hone : ([n + 1] : List Nat).filter (fun i => i != n) = [n + 1] := by
    simp only [List.filter_cons, List.filter_nil]
    have : ((n + 1 : Nat) != n) = true := by
      simp only [bne_iff_ne, ne_eq]
      omega
    simp [this]
  have hinner :
      ((((L ++ [n]) ++ [n + 1]) ++ List.range' (n + 2) k).filter
        (fun i => i != n)) = (L ++ [n + 1]) ++ List.range' (n + 2) k := by
    rw [List.filter_append, List.filter_append, scrub_one L n hL, hone, hrange]
  rw [hinner]
  have hLkeep : L.filter
      (fun i => !(((n + 1) :: List.range' (n + 2) k).contains i)) = L := by
    apply List.filter_eq_self.mpr
    intro a ha
    have hlt := hL a ha
    have hc : (((n + 1) :: List.range' (n + 2) k).contains a) = false := by
      simp [List.mem_range'_1]
      omega
    simp only [hc, Bool.not_false]
  have hdrop1 : ([n + 1] : List Nat).filter
      (fun i => !(((n + 1) :: List.range' (n + 2) k).contains i)) = [] := by
    simp
  have hdrop2 : (List.range' (n + 2) k).filter
      (fun i => !(((n + 1) :: List.range' (n + 2) k).contains i)) = [] := by
    apply List.filter_eq_nil_iff.mpr
    intro a ha
    simp_all
  rw [List.filter_append, List.filter_append, hLkeep, hdrop1, hdrop2]
  simp

/-! ### Concrete fixtures for witnesses and counterexamples -/

/-- The synthetic addition model built in a fresh environment (tensor ids 0, 1). -/
def mSuma : Model := (crearModeloEnMemoria Op.suma Env.init).1

/-- The environment after building `mSuma`: ids 0 and 1 are live. -/
def envSuma : Env := (crearModeloEnMemoria Op.suma Env.init).2

/-- The synthetic subtraction model built in a fresh environment. -/
def mResta : Model := (crearModeloEnMemoria Op.resta Env.init).1

/-- The environment after building `mResta`. -/
def envResta : Env := (crearModeloEnMemoria Op.resta Env.init).2

/-- Ready state: synthetic addition model, inputs "2" and "3". -/
def sAdd23 : AppState :=
  ⟨some mSuma, Op.suma, "2", "3", none, false, "Generado en Memoria (Demo)"⟩

/-- Ready state: synthetic subtraction model, inputs "10" and "4". -/
def sSub104 : AppState :=
  ⟨some mResta, Op.resta, "10", "4", none, false, "Generado en Memoria (Demo)"⟩

/-- Ready state with an empty first input. -/
def sEmptyA : AppState :=
  ⟨some mSuma, Op.suma, "", "5", none, false, "Generado en Memoria (Demo)"⟩

/-- Ready state with a non-numeric first input. -/
def sAbc : AppState :=
  ⟨some mSuma, Op.suma, "abc", "5", none, false, "Generado en Memoria (Demo)"⟩

/-- Ready state whose first input "3abc" is not purely numeric but has the
numeric leading segment 3. -/
def s3abc : AppState :=
  ⟨some mSuma, Op.suma, "3abc", "4", none, false, "Generado en Memoria (Demo)"⟩

/-! ### Claim theorems -/

/-- C3: model resolution never ends in a failure state: for every starting
state and every outcome of the external load attempt (`load = none` is any
load failure), `cambiarModelo` leaves a non-null model, because the `catch`
installs the synthetic model, whose construction (`crearModeloEnMemoria`) is a
total pure function — it cannot raise and performs no I/O or retries. -/
theorem cambiarModelo_always_yields_model (s : AppState) (load : Option Model)
    (env : Env) :
    (cambiarModelo s load env).1.modeloActual.isSome = true := by
  cases load <;>
    simp [cambiarModelo, finishLoading, startLoading, crearModeloEnMemoria,
      Env.alloc]

/-- C8: model lifecycle state machine. After `startLoading` (entered whenever
the operation changes) the session is in `Loading`: the loading flag is up and
the model slot is null, and `calcular` from that state performs no computation
at all (state, environment, alert and predict-invocation all unchanged).
After resolution (`cambiarModelo`) the session is in `Ready(Loaded)` or
`Ready(Synthetic)`: the model is non-null and the loading flag is down, which
is the only situation in which `calcular` can reach `predict`. -/
theorem model_lifecycle_state_machine (s : AppState) (env : Env) (o : Outcome)
    (load : Option Model) :
    (startLoading s).cargando = true ∧
    (startLoading s).modeloActual = none ∧
    calcular (startLoading s) env o = ⟨startLoading s, env, false, false⟩ ∧
    (cambiarModelo s load env).1.modeloActual.isSome = true ∧
    (cambiarModelo s load env).1.cargando = false := by
  refine ⟨rfl, rfl, ?_, ?_, ?_⟩
  · exact calcular_of_none _ _ _ rfl
  · cases load <;>
      simp [cambiarModelo, finishLoading, startLoading, crearModeloEnMemoria,
        Env.alloc]
  · cases load <;>
      simp [cambiarModelo, finishLoading, startLoading, crearModeloEnMemoria,
        Env.alloc]

/-- C9: `calcular` is deterministic: running it a second time with the same
model and the same inputs (the first run changes neither) displays the same
result, whatever the outcome shape of the forward pass. -/
theorem calcular_deterministic (s : AppState) (env : Env) (o : Outcome) :
    (calcular (calcular s env o).state (calcular s env o).env o).state.resultado
      = (calcular s env o).state.resultado := by
  rcases hm : s.modeloActual with _ | m
  · simp [calcular_of_none s env o hm]
  · by_cases he : s.valA = "" ∨ s.valB = ""
    · simp [calcular_of_empty s env o m hm he]
    · obtain ⟨hA, hB⟩ := not_or.mp he
      rcases hpa : parseFloat s.valA with _ | a
      · simp [calcular_of_nan s env o m hm hA hB (Or.inl hpa)]
      · rcases hpb : parseFloat s.valB with _ | b
        · simp [calcular_of_nan s env o m hm hA hB (Or.inr hpb)]
        · have hst := (calcular_state_of_valid s env o m a b hm hA hB hpa hpb).1
          have hst2 := (calcular_state_of_valid (calcular s env o).state
            (calcular s env o).env o m a b
            (by rw [hst]; exact hm) (by rw [hst]; exact hA)
            (by rw [hst]; exact hB) (by rw [hst]; exact hpa)
            (by rw [hst]; exact hpb)).1
          rw [hst2, hst]

/-- C1: with the synthetic Add model active, `predict` computes exactly
`a + b` (the embedding's rationals make the float tolerance exact), and the
displayed result is that value formatted to two decimals via `toFixed(2)`. -/
theorem suma_synthetic_predicts_sum (s : AppState) (env env0 : Env) (a b : ℚ)
    (hm : s.modeloActual = some (crearModeloEnMemoria Op.suma env0).1)
    (hA : s.valA ≠ "") (hB : s.valB ≠ "")
    (ha : parseFloat s.valA = some a) (hb : parseFloat s.valB = some b) :
    forwardValue (crearModeloEnMemoria Op.suma env0).1 a b = a + b ∧
    (calcular s env Outcome.okSingle).state.resultado
      = some (toFixed2 (a + b)) := by
  have hfwd : forwardValue (crearModeloEnMemoria Op.suma env0).1 a b = a + b := by
    simp [forwardValue, crearModeloEnMemoria, Env.alloc]
  refine ⟨hfwd, ?_⟩
  have hst := (calcular_state_of_valid s env Outcome.okSingle _ a b
    hm hA hB ha hb).1
  rw [hst]
  simp [hfwd]

/-- C1 witness: a = 2, b = 3 on the synthetic Add model displays "5.00". -/
theorem suma_synthetic_predicts_sum_witness :
    sAdd23.modeloActual = some (crearModeloEnMemoria Op.suma Env.init).1 ∧
    parseFloat sAdd23.valA = some 2 ∧
    parseFloat sAdd23.valB = some 3 ∧
    (calcular sAdd23 envSuma Outcome.okSingle).state.resultado
      = some "5.00" := by
  have h := suma_synthetic_predicts_sum sAdd23 envSuma Env.init 2 3 rfl
    (by with_unfolding_all decide) (by with_unfolding_all decide) (by with_unfolding_all decide) (by with_unfolding_all decide)
  refine ⟨rfl, by with_unfolding_all decide, by with_unfolding_all decide, ?_⟩
  rw [h.2]
  with_unfolding_all decide

/-- C2: the synthetic model's kernel is `[1, -1]` for Subtract and `[1, 1]`
for Add with bias `[0]`; with the synthetic Subtract model active, `predict`
computes exactly `a - b` and the displayed result is its `toFixed(2)`
rendering. -/
theorem resta_synthetic_predicts_difference (s : AppState) (env env0 : Env)
    (a b : ℚ)
    (hm : s.modeloActual = some (crearModeloEnMemoria Op.resta env0).1)
    (hA : s.valA ≠ "") (hB : s.valB ≠ "")
    (ha : parseFloat s.valA = some a) (hb : parseFloat s.valB = some b) :
    (crearModeloEnMemoria Op.resta env0).1.kernel.data = [1, -1] ∧
    (crearModeloEnMemoria Op.suma env0).1.kernel.data = [1, 1] ∧
    (crearModeloEnMemoria Op.resta env0).1.bias.data = [0] ∧
    forwardValue (crearModeloEnMemoria Op.resta env0).1 a b = a - b ∧
    (calcular s env Outcome.okSingle).state.resultado
      = some (toFixed2 (a - b)) := by
  have hfwd : forwardValue (crearModeloEnMemoria Op.resta env0).1 a b
      = a - b := by
    simp [forwardValue, crearModeloEnMemoria, Env.alloc]
    ring
  refine ⟨by simp [crearModeloEnMemoria, Env.alloc],
    by simp [crearModeloEnMemoria, Env.alloc],
    by simp [crearModeloEnMemoria, Env.alloc], hfwd, ?_⟩
  have hst := (calcular_state_of_valid s env Outcome.okSingle _ a b
    hm hA hB ha hb).1
  rw [hst]
  simp [hfwd]

/-- C2 witness: a = 10, b = 4 on the synthetic Subtract model displays
"6.00". -/
theorem resta_synthetic_predicts_difference_witness :
    sSub104.modeloActual = some (crearModeloEnMemoria Op.resta Env.init).1 ∧
    parseFloat sSub104.valA = some 10 ∧
    parseFloat sSub104.valB = some 4 ∧
    (calcular sSub104 envResta Outcome.okSingle).state.resultado
      = some "6.00" := by
  have h := resta_synthetic_predicts_difference sSub104 envResta Env.init 10 4
    rfl (by with_unfolding_all decide) (by with_unfolding_all decide) (by with_unfolding_all decide) (by with_unfolding_all decide)
  refine ⟨rfl, by with_unfolding_all decide, by with_unfolding_all decide, ?_⟩
  rw [h.2.2.2.2]
  with_unfolding_all decide

/-- C10: non-empty inputs whose `parseFloat` yields a (finite) number — even
when the string has a non-numeric tail, such as "3abc" — are treated as
valid: no alert fires, `predict` is invoked, and the displayed result is the
prediction on the parsed leading numeric values. -/
theorem calcular_accepts_parseFloat_inputs (s : AppState) (env : Env)
    (m : Model) (a b : ℚ)
    (hm : s.modeloActual = some m) (hA : s.valA ≠ "") (hB : s.valB ≠ "")
    (ha : parseFloat s.valA = some a) (hb : parseFloat s.valB = some b) :
    (calcular s env Outcome.okSingle).alerted = false ∧
    (calcular s env Outcome.okSingle).predictInvoked = true ∧
    (calcular s env Outcome.okSingle).state.resultado
      = some (toFixed2 (forwardValue m a b)) := by
  obtain ⟨hst, hal, hpi⟩ := calcular_state_of_valid s env Outcome.okSingle
    m a b hm hA hB ha hb
  exact ⟨hal, hpi, by rw [hst]⟩

/-- C10 witness: valA = "3abc" parses to 3; with b = 4 on the Add model the
computation runs, no alert fires, and "7.00" is displayed. -/
theorem calcular_accepts_parseFloat_inputs_witness :
    parseFloat "3abc" = some 3 ∧
    (calcular s3abc envSuma Outcome.okSingle).alerted = false ∧
    (calcular s3abc envSuma Outcome.okSingle).state.resultado
      = some "7.00" := by
  have h := calcular_accepts_parseFloat_inputs s3abc envSuma mSuma 3 4 rfl
    (by with_unfolding_all decide) (by with_unfolding_all decide) (by with_unfolding_all decide) (by with_unfolding_all decide)
  refine ⟨by with_unfolding_all decide, h.1, ?_⟩
  rw [h.2.2]
  with_unfolding_all decide

/-- C4 counterexample: with a model present and `valA = ""` — an input pair in
which a is not a valid number — `calcular` signals nothing at all: no alert
fires, the state (including the displayed result) is untouched and `predict`
is not invoked. The claim's "signals a ValidationError" is false for empty
inputs, which take the silent early-return guard rather than the alert. -/
theorem calcular_empty_input_silent :
    (calcular sEmptyA envSuma Outcome.okSingle).alerted = false ∧
    (calcular sEmptyA envSuma Outcome.okSingle).state = sEmptyA ∧
    (calcular sEmptyA envSuma Outcome.okSingle).predictInvoked = false := by
  with_unfolding_all decide

/-- C4 (amended): for every input pair in which either value is empty or fails
numeric parsing, `calcular` performs no computation — `predict` is never
invoked, no tensors are allocated (the environment is unchanged) and no state
changes occur; the ValidationError alert fires exactly when a model is present
and both inputs are non-empty (i.e. a non-empty input parsed as NaN), while
empty inputs cause a silent no-op. -/
theorem calcular_invalid_input_no_computation (s : AppState) (env : Env)
    (o : Outcome)
    (hinv : s.valA = "" ∨ s.valB = "" ∨ parseFloat s.valA = none ∨
      parseFloat s.valB = none) :
    (calcular s env o).state = s ∧
    (calcular s env o).env = env ∧
    (calcular s env o).predictInvoked = false ∧
    ((calcular s env o).alerted = true ↔
      (s.modeloActual.isSome = true ∧ s.valA ≠ "" ∧ s.valB ≠ "")) := by
  rcases hm : s.modeloActual with _ | m
  · rw [calcular_of_none s env o hm]
    simp [hm]
  · by_cases he : s.valA = "" ∨ s.valB = ""
    · rw [calcular_of_empty s env o m hm he]
      refine ⟨rfl, rfl, rfl, ?_⟩
      simp only [hm]
      rcases he with he | he <;> simp [he]
    · obtain ⟨hA, hB⟩ := not_or.mp he
      have hn : parseFloat s.valA = none ∨ parseFloat s.valB = none := by
        rcases hinv with h | h | h | h
        · exact absurd h hA
        · exact absurd h hB
        · exact Or.inl h
        · exact Or.inr h
      rw [calcular_of_nan s env o m hm hA hB hn]
      exact ⟨rfl, rfl, rfl, by simp [hm, hA, hB]⟩

/-- C4 witness: "abc" is non-empty but parses as NaN, so with a model present
the amended claim yields an unchanged state with the alert fired. -/
theorem calcular_invalid_input_no_computation_witness :
    parseFloat sAbc.valA = none ∧
    (calcular sAbc envSuma Outcome.okSingle).state = sAbc ∧
    (calcular sAbc envSuma Outcome.okSingle).env = envSuma ∧
    (calcular sAbc envSuma Outcome.okSingle).alerted = true := by
  have h := calcular_invalid_input_no_computation sAbc envSuma Outcome.okSingle
    (Or.inr (Or.inr (Or.inl (by with_unfolding_all decide))))
  refine ⟨by with_unfolding_all decide, h.1, h.2.1, ?_⟩
  exact h.2.2.2.mpr ⟨rfl, by with_unfolding_all decide,
    by with_unfolding_all decide⟩

/-- C5 counterexample: starting from a state holding the synthetic Add model
(backing tensor ids 0 and 1, both live), an operation-change resolution with a
failing load installs the replacement model while ids 0 and 1 are still live:
the previous model's numeric backing resources were NOT released before the
replacement was installed — `cambiarModelo` contains no dispose call at all. -/
theorem cambiarModelo_keeps_old_tensors_live :
    (cambiarModelo sAdd23 none envSuma).1.modeloActual
      = some (crearModeloEnMemoria Op.suma envSuma).1 ∧
    mSuma.kernel.id ∈ (cambiarModelo sAdd23 none envSuma).2.live ∧
    mSuma.bias.id ∈ (cambiarModelo sAdd23 none envSuma).2.live := by
  with_unfolding_all decide

/-- C5 (amended): when the operation changes, the previous Model instance is
discarded only in the sense that the slot is cleared and overwritten; its
numeric backing resources are never explicitly released — every tensor id
live before the replacement is still live after it, and reclamation is left to
the host environment's garbage collection. -/
theorem cambiarModelo_preserves_live_tensors (s : AppState)
    (load : Option Model) (env : Env) :
    ∀ i ∈ env.live, i ∈ (cambiarModelo s load env).2.live := by
  intro i hi
  cases load with
  | some m =>
    simpa [cambiarModelo, finishLoading, startLoading] using hi
  | none =>
    simp [cambiarModelo, finishLoading, startLoading, crearModeloEnMemoria,
      Env.alloc, hi]

/-- C5 witness: tensor id 0 (the old kernel) is live before the change and
still live after it. -/
theorem cambiarModelo_preserves_live_tensors_witness :
    0 ∈ envSuma.live ∧ 0 ∈ (cambiarModelo sAdd23 none envSuma).2.live :=
  ⟨by with_unfolding_all decide,
   cambiarModelo_preserves_live_tensors sAdd23 none envSuma 0
     (by with_unfolding_all decide)⟩

/-- C7: if the forward pass throws (`failPredict`) or the result extraction
throws (`failData`), `calcular` displays the error marker "Error" in place of
a numeric result, does not retry, does not crash (it is a total function whose
`catch` produces a state), keeps the model installed, and a subsequent
prediction from the resulting state succeeds normally. -/
theorem calcular_failure_error_marker (s : AppState) (env : Env) (m : Model)
    (a b : ℚ) (o : Outcome)
    (hm : s.modeloActual = some m) (hA : s.valA ≠ "") (hB : s.valB ≠ "")
    (ha : parseFloat s.valA = some a) (hb : parseFloat s.valB = some b)
    (ho : o = Outcome.failPredict ∨ o = Outcome.failData) :
    (calcular s env o).state.resultado = some "Error" ∧
    (calcular s env o).state.modeloActual = some m ∧
    (calcular (calcular s env o).state (calcular s env o).env
        Outcome.okSingle).state.resultado
      = some (toFixed2 (forwardValue m a b)) := by
  have hst := (calcular_state_of_valid s env o m a b hm hA hB ha hb).1
  have h1 : (calcular s env o).state.resultado = some "Error" := by
    rw [hst]
    rcases ho with h | h <;> subst h <;> rfl
  have h2 : (calcular s env o).state.modeloActual = some m := by
    rw [hst]; exact hm
  have hst2 := (calcular_state_of_valid (calcular s env o).state
      (calcular s env o).env Outcome.okSingle m a b
      h2 (by rw [hst]; exact hA) (by rw [hst]; exact hB)
      (by rw [hst]; exact ha) (by rw [hst]; exact hb)).1
  exact ⟨h1, h2, by rw [hst2]⟩

/-- C7 witness: on 2 and 3 with the synthetic Add model, a failing forward
pass displays "Error" and the next prediction still displays "5.00". -/
theorem calcular_failure_error_marker_witness :
    (calcular sAdd23 envSuma Outcome.failPredict).state.resultado
      = some "Error" ∧
    (calcular (calcular sAdd23 envSuma Outcome.failPredict).state
        (calcular sAdd23 envSuma Outcome.failPredict).env
        Outcome.okSingle).state.resultado = some "5.00" := by
  have h := calcular_failure_error_marker sAdd23 envSuma mSuma 2 3
    Outcome.failPredict rfl (by with_unfolding_all decide)
    (by with_unfolding_all decide) (by with_unfolding_all decide)
    (by with_unfolding_all decide) (Or.inl rfl)
  refine ⟨h.1, ?_⟩
  rw [h.2.2]
  with_unfolding_all decide

/-- C6: scoped acquisition/release in `calcular`: on every exit path — silent
guard return, validation alert, successful prediction (single tensor or tensor
array), forward-pass failure, or extraction failure — every transient tensor
allocated for the input batch and for the raw prediction output has been
disposed by the `finally` block, so the set of live tensors when the call
returns is exactly the set that was live when it began. -/
theorem calcular_disposes_transient_tensors (s : AppState) (env : Env)
    (o : Outcome) (hwf : env.WF) :
    (calcular s env o).env.live = env.live := by
  rcases hm : s.modeloActual with _ | m
  · rw [calcular_of_none s env o hm]
  · by_cases he : s.valA = "" ∨ s.valB = ""
    · rw [calcular_of_empty s env o m hm he]
    · obtain ⟨hA, hB⟩ := not_or.mp he
      rcases hpa : parseFloat s.valA with _ | a
      · rw [calcular_of_nan s env o m hm hA hB (Or.inl hpa)]
      · rcases hpb : parseFloat s.valB with _ | b
        · rw [calcular_of_nan s env o m hm hA hB (Or.inr hpb)]
        · cases o with
          | okSingle =>
            simp only [calcular, hm, hA, hB, hpa, hpb, Env.alloc, Env.dispose,
              or_self, if_false]
            exact scrub_two env.live env.nextId hwf
          | okBatch extra =>
            simp only [calcular, hm, hA, hB, hpa, hpb, Env.alloc, Env.dispose,
              or_self, if_false]
            obtain ⟨hids, hnext, hlive⟩ := allocMany_spec extra
              ⟨env.nextId + 1 + 1, env.live ++ [env.nextId] ++ [env.nextId + 1]⟩
            rw [disposeAll_live, List.map_cons, hids, hlive]
            exact scrub_batch env.live env.nextId extra.length hwf
          | failPredict =>
            simp only [calcular, hm, hA, hB, hpa, hpb, Env.alloc, Env.dispose,
              or_self, if_false]
            exact scrub_one env.live env.nextId hwf
          | failData =>
            simp only [calcular, hm, hA, hB, hpa, hpb, Env.alloc, Env.dispose,
              or_self, if_false]
            exact scrub_two env.live env.nextId hwf

/-- C6 witness: on a well-formed environment with the model tensors live, a
batch-shaped prediction run leaves exactly the model tensors live. -/
theorem calcular_disposes_transient_tensors_witness :
    envSuma.WF ∧
    (calcular sAdd23 envSuma (Outcome.okBatch [[7]])).env.live
      = envSuma.live :=
  ⟨by with_unfolding_all decide,
   calcular_disposes_transient_tensors sAdd23 envSuma (Outcome.okBatch [[7]])
     (by with_unfolding_all decide)⟩

end Calculadora
